import Mathlib

/-!
# IRBlaupunktLogger — verification of the event-interpretation core

A shallow embedding of the ESP32 firmware in `src/main.cpp` (the
session-naming variant; `unnamed/part_000` is the BLE variant with the same
core logic).  The firmware classifies raw IR remote codes into symbolic
buttons, detects "hold" presses, groups rapid presses onto ascending
timeline tracks, formats a Premiere-Pro `insertClip` script line per
accepted event, persists it to SPIFFS and echoes it over Serial, and offers
a file-management command dispatcher.

Arduino `String` operations (`trim`, `charAt`, `substring`, `startsWith`,
`equalsIgnoreCase`, `toInt`/`atol`, `+`) are embedded as functions on Lean
`String`/`List Char`.  `millis()` timestamps are `unsigned long` (32 bits
on ESP32); all timestamp subtractions in the source are embedded with
wrap-around subtraction `usub32`.
-/

namespace IRBlaupunkt

/-- `2^32`: the modulus of `unsigned long` arithmetic on the ESP32. -/
def W32 : Nat := 4294967296

/-- Wrap-around (unsigned 32-bit) subtraction `a - b`, as performed by the
source on `millis()` differences. -/
def usub32 (a b : Nat) : Nat := (a % W32 + (W32 - b % W32)) % W32

/-- Characters removed by Arduino `String::trim` (C `isspace`). -/
def wsChar (c : Char) : Bool :=
  c = ' ' || c = '\t' || c = '\n' || c = '\x0b' || c = '\x0c' || c = '\r'

/-- Trim `isspace` characters from both ends of a character list. -/
def trimChars (l : List Char) : List Char :=
  ((l.dropWhile wsChar).reverse.dropWhile wsChar).reverse

/-- Arduino `String::trim`. -/
def strTrim (s : String) : String := ⟨trimChars s.data⟩

/-- ASCII `tolower`, as used by Arduino `String::equalsIgnoreCase`. -/
def toLowerChar (c : Char) : Char :=
  if 'A' ≤ c ∧ c ≤ 'Z' then Char.ofNat (c.toNat + 32) else c

/-- Lower-case an entire string. -/
def lowerStr (s : String) : String := ⟨s.data.map toLowerChar⟩

/-- Arduino `String::equalsIgnoreCase`. -/
def eqIgnoreCase (a b : String) : Bool := lowerStr a = lowerStr b

/-- Arduino `String::charAt(0)`: returns the NUL character when the string
is empty (out-of-range access returns 0). -/
def charAt0 (s : String) : Char := s.data.headD (Char.ofNat 0)

/-- Arduino `String::startsWith`. -/
def startsWithStr (s p : String) : Bool := p.data.isPrefixOf s.data

/-- Arduino `String::substring(n)` (drop the first `n` characters). -/
def dropStr (s : String) (n : Nat) : String := ⟨s.data.drop n⟩

/-- ASCII decimal digit test. -/
def isDigitChar (c : Char) : Bool := '0' ≤ c && c ≤ '9'

/-- Value of the greedy digit prefix of a character list (`atol`'s digit
loop), accumulating left to right. -/
def digitsVal : List Char → Nat → Nat
  | [], acc => acc
  | c :: cs, acc =>
      if isDigitChar c then digitsVal cs (acc * 10 + (c.toNat - '0'.toNat))
      else acc

/-- C `atol`, the implementation behind Arduino `String::toInt`: skip
leading whitespace, an optional sign, then a greedy digit run; `0` when no
digits follow.  (The source only ever compares the result against small
file counts, so `long` overflow is irrelevant and the value is modelled
exactly.) -/
def atol (s : String) : Int :=
  let cs := s.data.dropWhile wsChar
  match cs with
  | '-' :: rest => -(digitsVal rest 0 : Int)
  | '+' :: rest => (digitsVal rest 0 : Int)
  | _ => (digitsVal cs 0 : Int)

/-- Left-pad the decimal rendering of `n < 1000` to exactly 3 digits. -/
def zeroPad3 (n : Nat) : String :=
  if n < 10 then "00" ++ Nat.repr n
  else if n < 100 then "0" ++ Nat.repr n
  else Nat.repr n

/-- Embeds `String(clipTime / 1000.0, 3)` from the source: the clip time in
milliseconds rendered as seconds with exactly 3 decimal places.  For every
`t < 2^32` the `double` nearest to `t / 1000.0` differs from the exact
rational `t/1000` by less than `2^-20`, far below the `0.0005` needed to
change a 3-decimal rounding, and `t/1000` is itself a multiple of `0.001`,
so the printed text is exactly the integer part, a point, and the
3-digit-padded remainder. -/
def formatMs3 (t : Nat) : String :=
  Nat.repr (t / 1000) ++ "." ++ zeroPad3 (t % 1000)

/-! ## Button Classifier

Embeds the `switch ((int)command)` table of `handleButtonPress`
(`main.cpp` lines 165–176).  Unknown codes map to the sentinel `""`. -/

/-- The IR code → symbolic button lookup table of `handleButtonPress`. -/
def classifyButton (command : Nat) : String :=
  if command = 25 then "ok"
  else if command = 24 then "right"
  else if command = 22 then "down"
  else if command = 23 then "left"
  else if command = 21 then "up"
  else if command = 71 then "home"
  else if command = 16 then "settings"
  else if command = 72 then "back"
  else if command = 50 then "tv"
  else ""

/-! ## Hold Detector

Embeds the hold-detection core of `handleButtonPress` (`main.cpp` lines
162–202), in its time-heuristic configuration (the `#else` branch with
`holdThreshold = 700` ms, which is the configuration the specification's
700 ms guarantee describes).  The emitted name, when any, is the argument
the source passes to `logCommand`. -/

/-- The rolling state of the hold detector: the globals `lastButton`,
`lastButtonTimestamp`, `holdLogged`. -/
structure HoldState where
  lastButton : String
  lastButtonTimestamp : Nat
  holdLogged : Bool
  deriving Repr, DecidableEq

/-- Boot values of the hold-detector globals (`main.cpp` lines 11–15). -/
def initHold : HoldState := ⟨"", 0, false⟩

/-- One call of `handleButtonPress` restricted to classification and hold
detection: returns the button name passed to `logCommand` (`none` when the
call returns early) and the resulting globals.  Mirrors the source exactly:
on the suppressed path (`isRepeat && holdLogged`) the function returns
before the `lastButton`/`lastButtonTimestamp` assignments, and on emission
`lastButton` receives the (possibly `_hold`-suffixed) emitted name. -/
def processHold (st : HoldState) (command now : Nat) : Option String × HoldState :=
  let buttonName := classifyButton command
  if buttonName = "" then (none, st)
  else
    let isRepeat : Bool :=
      buttonName = st.lastButton && usub32 now st.lastButtonTimestamp < 700
    if isRepeat then
      if !st.holdLogged then
        let emitted := buttonName ++ "_hold"
        (some emitted, ⟨emitted, now, true⟩)
      else
        (none, st)
    else
      (some buttonName, ⟨buttonName, now, false⟩)

/-- Run the hold detector over a timed sequence of raw codes, collecting
the emitted button names in order. -/
def runHold (st : HoldState) : List (Nat × Nat) → List String × HoldState
  | [] => ([], st)
  | (c, t) :: rest =>
      match processHold st c t with
      | (none, st') => runHold st' rest
      | (some e, st') =>
          let r := runHold st' rest
          (e :: r.1, r.2)

/-! ## Track / Timestamp Allocator and Script Emitter

Embeds `logCommand` and `writeToFile` (`main.cpp` lines 65–99).  The
side effects of one call — `Serial.println` lines and the SPIFFS append —
are collected as an ordered trace of `Effect`s.  Whether
`SPIFFS.open(currentFileName, FILE_APPEND)` succeeds is an external
condition of the storage layer, passed in as the oracle `openOk`. -/

/-- The rolling state of `logCommand`: the globals `timestampStart`,
`lastClipTime`, `currentTrackIndex`, `currentFileName`. -/
structure LogState where
  timestampStart : Nat
  lastClipTime : Nat
  currentTrackIndex : Nat
  currentFileName : String
  deriving Repr, DecidableEq

/-- One observable side effect of `logCommand`/`writeToFile`: a line
printed to the control channel, or a full line appended to a stored
file. -/
inductive Effect where
  | echo (line : String)
  | append (path line : String)
  deriving Repr, DecidableEq

/-- The burst-grouping step inside `logCommand` (`main.cpp` lines 86–91):
returns the updated `(lastClipTime, currentTrackIndex)` pair. -/
def allocateTrack (lastClipTime currentTrackIndex clipTime : Nat) : Nat × Nat :=
  if usub32 clipTime lastClipTime < 1000 then
    (clipTime, currentTrackIndex + 1)
  else
    (clipTime, 1)

/-- The `commandStr` built by `logCommand` (`main.cpp` lines 94–96). -/
def logLine (trackIndex : Nat) (buttonName : String) (clipTime : Nat) : String :=
  "app.project.activeSequence.videoTracks[" ++ Nat.repr trackIndex ++
    "].insertClip(\"" ++ buttonName ++ ".mp4\", " ++ formatMs3 clipTime ++ ");"

/-- `writeToFile(line)` (`main.cpp` lines 65–77): complains when no session
file is set, appends the full line when the open succeeds, else reports the
failure; the append is a single `file.println` so it happens entirely or
not at all. -/
def writeToFile (openOk : Bool) (currentFileName line : String) : List Effect :=
  if currentFileName = "" then [.echo "No active session file."]
  else if openOk then [.append currentFileName line]
  else [.echo ("Failed to open file for writing: " ++ currentFileName)]

/-- `logCommand(buttonName)` at time `now` (`main.cpp` lines 81–99):
computes the clip time, runs the track allocator for non-power buttons,
then echoes the command line and hands it to `writeToFile` — in that
source order. -/
def logCommand (openOk : Bool) (st : LogState) (buttonName : String) (now : Nat) :
    LogState × List Effect :=
  let clipTime := usub32 now st.timestampStart
  let st' :=
    if buttonName ≠ "power" ∧ buttonName ≠ "power_hold" then
      let r := allocateTrack st.lastClipTime st.currentTrackIndex clipTime
      { st with lastClipTime := r.1, currentTrackIndex := r.2 }
    else st
  let commandStr := logLine st'.currentTrackIndex buttonName clipTime
  (st', .echo commandStr :: writeToFile openOk st.currentFileName commandStr)

/-! Specification-side definitions, written from the spec's words, for the
refinement claims about the emitter (§4.4 and §6 of the spec). -/

/-- Modelled from the spec: the persisted log line format of §6,
`app.project.activeSequence.videoTracks[<trackIndex>].insertClip("<clipLabel>.mp4", <seconds, 3 decimals>);`
with the seconds value being the clip time in ms divided by 1000, rendered
with 3 decimal places. -/
def specLine (trackIndex : Nat) (clipLabel : String) (clipTimeMs : Nat) : String :=
  "app.project.activeSequence.videoTracks[" ++ Nat.repr trackIndex ++
    "].insertClip(\"" ++ clipLabel ++ ".mp4\", " ++
    (Nat.repr (clipTimeMs / 1000) ++ "." ++ zeroPad3 (clipTimeMs % 1000)) ++ ");"

/-- Modelled from the spec: §4.4's ordering requirement, "persisted append
first, then echo" — some append effect occurs strictly before some echo
effect in the trace. -/
def appendThenEcho (tr : List Effect) : Bool :=
  match tr.findIdx? (fun e => match e with | .append _ _ => true | _ => false),
        tr.findIdx? (fun e => match e with | .echo _ => true | _ => false) with
  | some i, some j => i < j
  | _, _ => false

/-! ## Session Manager — IR-mode state machine

Embeds the IR-mode half of `loop` (`main.cpp` lines 316–404) over the
globals it manipulates.  Serial lines are delivered as inputs already read;
`loop` trims them before use and the step function does the same.  The
end-of-session flow (power code 33, lines 353–395) reads a keep/discard
decision line synchronously; whatever the decision, it sets
`sessionActive = false` and `currentFileName = ""` — the decision only
selects whether the stored file is removed and whether the menu is
re-entered, neither of which is part of this state. -/

/-- The IR-mode globals of `main.cpp` (lines 9–34). -/
structure IRState where
  sessionActive : Bool
  awaitingSessionName : Bool
  currentFileName : String
  timestampStart : Nat
  lastClipTime : Nat
  currentTrackIndex : Nat
  lastButton : String
  lastButtonTimestamp : Nat
  holdLogged : Bool
  deriving Repr, DecidableEq

/-- Boot values of the globals (`main.cpp` lines 9–34). -/
def initIR : IRState :=
  { sessionActive := false, awaitingSessionName := false, currentFileName := "",
    timestampStart := 0, lastClipTime := 0, currentTrackIndex := 1,
    lastButton := "", lastButtonTimestamp := 0, holdLogged := false }

/-- `main.cpp` lines 333–336: prepend `'/'` when the first character is not
`'/'` (`charAt(0)` of the empty string is NUL, so the slash is prepended
then too). -/
def withLeadingSlash (input : String) : String :=
  if charAt0 input ≠ '/' then "/" ++ input else input

/-- `main.cpp` lines 325–347: one (already trimmed) serial line handled
while no session is active.  `"menu"` (case-insensitive) cancels and
returns to the menu (second component `true`); anything else becomes the
session name: the log target `<name>.txt` is set, the session is marked
active and the allocator state is reset. -/
def handleNameInput (st : IRState) (input : String) (now : Nat) : IRState × Bool :=
  if eqIgnoreCase input "menu" then
    ({ st with awaitingSessionName := false }, true)
  else
    let name := withLeadingSlash input
    ({ st with currentFileName := name ++ ".txt",
               sessionActive := true,
               awaitingSessionName := false,
               timestampStart := now,
               lastClipTime := 0,
               currentTrackIndex := 1 }, false)

/-- The `LogState` view of the IR-mode globals. -/
def logStateOf (st : IRState) : LogState :=
  ⟨st.timestampStart, st.lastClipTime, st.currentTrackIndex, st.currentFileName⟩

/-- The whole of `handleButtonPress` (`main.cpp` lines 162–202): hold
detection, then `logCommand` on emission, then the `lastButton` /
`lastButtonTimestamp` updates, over the full global state. -/
def handleButtonPressFull (openOk : Bool) (st : IRState) (command now : Nat) :
    IRState × List Effect :=
  match processHold ⟨st.lastButton, st.lastButtonTimestamp, st.holdLogged⟩ command now with
  | (none, h) =>
      ({ st with lastButton := h.lastButton,
                 lastButtonTimestamp := h.lastButtonTimestamp,
                 holdLogged := h.holdLogged }, [])
  | (some name, h) =>
      let r := logCommand openOk (logStateOf st) name now
      ({ st with lastClipTime := r.1.lastClipTime,
                 currentTrackIndex := r.1.currentTrackIndex,
                 lastButton := h.lastButton,
                 lastButtonTimestamp := h.lastButtonTimestamp,
                 holdLogged := h.holdLogged }, r.2)

/-- One stimulus to the IR-mode loop: the prompt printing when idle (which
sets `awaitingSessionName`), a serial line while no session is active, or a
decoded IR code while a session is active (code 33 carries the
keep/discard decision line that the end-of-session flow reads). -/
inductive IRInput where
  | promptTick
  | nameLine (line : String) (now : Nat)
  | irCode (code : Nat) (now : Nat) (decision : String)

/-- One iteration of the IR-mode branch of `loop` (`main.cpp` lines
316–404) on the state it manipulates. -/
def stepIR (openOk : Bool) (st : IRState) (i : IRInput) : IRState :=
  match i with
  | .promptTick =>
      if st.sessionActive then st else { st with awaitingSessionName := true }
  | .nameLine line now =>
      if st.sessionActive then st
      else (handleNameInput st (strTrim line) now).1
  | .irCode code now _decision =>
      if st.sessionActive then
        if code = 33 then
          { st with sessionActive := false, currentFileName := "" }
        else
          (handleButtonPressFull openOk st code now).1
      else st

/-- The states the IR-mode loop can reach from boot. -/
inductive ReachableIR : IRState → Prop where
  | init : ReachableIR initIR
  | step (st : IRState) (openOk : Bool) (i : IRInput) :
      ReachableIR st → ReachableIR (stepIR openOk st i)

/-! ## File Management Router

Embeds `handleSerialCommand`, `listStoredFiles`, `deleteAllFiles`,
`sendFileOverSerial` and `sendAllFilesOverSerial` (`main.cpp` lines
102–268).  SPIFFS is modelled as an ordered list of (full path, content)
pairs; `File::path()` is the full path and `File::name()` its basename
(the part after the last `'/'`, which for the flat paths this firmware
creates is the path without its leading slash). -/

/-- `File::name()`: the part of the path after the last `'/'`. -/
def basename (p : String) : String :=
  ⟨(p.data.reverse.takeWhile (fun c => c ≠ '/')).reverse⟩

/-- The file-management globals (`main.cpp` lines 24–30) together with the
storage contents. -/
structure FMState where
  storage : List (String × String)
  fileCount : Nat
  fileList : List String
  logFileBase : String
  deriving Repr, DecidableEq

/-- `SPIFFS.remove(p)`: drop the entry with that exact path. -/
def removeStored (storage : List (String × String)) (p : String) :
    List (String × String) :=
  storage.filter (fun e => e.1 != p)

/-- The numbered `[%d] %s` lines printed by `listStoredFiles`. -/
def numberedLines : Nat → List String → List String
  | _, [] => []
  | i, p :: rest => ("[" ++ Nat.repr i ++ "] " ++ p) :: numberedLines (i + 1) rest

/-- `listStoredFiles` (`main.cpp` lines 119–132): refresh the snapshot
(`fileList`, `fileCount`) from storage, capped at 50 entries, printing a
numbered line per file or `No files found.`. -/
def listStoredFiles (st : FMState) : FMState × List String :=
  let entries := (st.storage.map Prod.fst).take 50
  let st' := { st with fileCount := entries.length, fileList := entries }
  if entries.length = 0 then (st', ["No files found."])
  else (st', numberedLines 1 entries)

/-- The removals performed by the `deleteAllFiles` loop: for each file of
the original directory iteration, remove `"/" + file.name()`. -/
def deleteAllAux : List String → List (String × String) → List (String × String)
  | [], s => s
  | p :: rest, s => deleteAllAux rest (removeStored s ("/" ++ basename p))

/-- `deleteAllFiles` (`main.cpp` lines 135–146).  It does NOT touch the
`fileList`/`fileCount` snapshot. -/
def deleteAllFilesFM (st : FMState) : FMState × List String :=
  ({ st with storage := deleteAllAux (st.storage.map Prod.fst) st.storage },
   ["All files deleted."])

/-- `sendFileOverSerial` (`main.cpp` lines 102–116): announce the name,
then either report the failed open or frame and dump the content. -/
def sendFileOverSerial (storage : List (String × String)) (name : String) :
    List String :=
  ("Sending: " ++ name) ::
    match List.lookup name storage with
    | none => ["Failed to open file for reading"]
    | some content =>
        [("START_FILE_TRANSFER:" ++ name), content, "\nEND_FILE_TRANSFER"]

/-- `sendAllFilesOverSerial` (`main.cpp` lines 149–159): iterates the
SNAPSHOT `fileList[0..fileCount)`, not the storage. -/
def sendAllFilesFM (st : FMState) : List String :=
  if st.fileCount = 0 then ["No files to send."]
  else
    "START_ALL_FILE_TRANSFER" ::
      ((List.range st.fileCount).flatMap
        (fun i => sendFileOverSerial st.storage (st.fileList.getD i ""))) ++
      ["END_ALL_FILE_TRANSFER"]

/-- The help text of the unknown-command branch. -/
def helpLines : List String :=
  ["Unknown command. Available commands:",
   "  list                 - List all stored files with numbers",
   "  delete               - Delete all stored files",
   "  delete <num>         - Delete a specific file by number",
   "  send <num>           - Send a specific file over Serial by number",
   "  send all             - Send all files over Serial",
   "  setbase <new_base>   - Change the log file base",
   "  menu                 - Exit File Management Mode and return to the main menu"]

/-- The dispatch chain of `handleSerialCommand` (`main.cpp` lines 205–268)
on the already-trimmed command.  Returns the new state, the serial output
lines, and whether control returned to the menu. -/
def dispatchCommand (st : FMState) (command : String) :
    FMState × List String × Bool :=
  if command = "menu" then (st, [], true)
  else if startsWithStr command "setbase " then
    let newBase := strTrim (dropStr command 8)
    if newBase.length > 0 then
      ({ st with logFileBase := newBase },
       ["Log file base changed to: " ++ newBase], false)
    else (st, ["Invalid base name."], false)
  else if command = "delete" then
    let r := deleteAllFilesFM st
    (r.1, r.2, false)
  else if startsWithStr command "delete " then
    let argument := strTrim (dropStr command 7)
    let fileIndex := atol argument
    if 0 < fileIndex ∧ fileIndex ≤ (st.fileCount : Int) then
      let fileToDelete := st.fileList.getD (fileIndex.toNat - 1) ""
      let removed := (List.lookup fileToDelete st.storage).isSome
      let st₁ := { st with storage := removeStored st.storage fileToDelete }
      let msg := if removed then "Deleted file: " ++ fileToDelete
                 else "Failed to delete file: " ++ fileToDelete
      let r := listStoredFiles st₁
      (r.1, msg :: r.2, false)
    else (st, ["Invalid file number."], false)
  else if command = "list" then
    let r := listStoredFiles st
    (r.1, r.2, false)
  else if startsWithStr command "send " then
    let argument := dropStr command 5
    if argument = "all" then (st, sendAllFilesFM st, false)
    else
      let fileIndex := atol argument
      if 0 < fileIndex ∧ fileIndex ≤ (st.fileCount : Int) then
        (st, sendFileOverSerial st.storage (st.fileList.getD (fileIndex.toNat - 1) ""),
         false)
      else (st, ["Invalid file number."], false)
  else (st, helpLines, false)

/-- `handleSerialCommand` (`main.cpp` line 206): trim, then dispatch. -/
def handleSerialCommand (st : FMState) (line : String) :
    FMState × List String × Bool :=
  dispatchCommand st (strTrim line)

/-! ## Concrete states used by counterexamples and witnesses -/

/-- A file-management state right after a `list` of three flat files. -/
def fmThree : FMState :=
  { storage := [("/a.txt", "x"), ("/b.txt", "y"), ("/c.txt", "z")],
    fileCount := 3, fileList := ["/a.txt", "/b.txt", "/c.txt"],
    logFileBase := "/premiere_log" }

/-- A file-management state right after a `list` of one NON-flat file,
`/a/b.txt` — the stored path a session named `a/b` creates. -/
def fmNested : FMState :=
  { storage := [("/a/b.txt", "x")],
    fileCount := 1, fileList := ["/a/b.txt"],
    logFileBase := "/premiere_log" }

/-! ## Helper lemmas -/

lemma usub32_eq_sub (a b : Nat) (hb : b ≤ a) (ha : a < W32) :
    usub32 a b = a - b := by
  have hbW : b < W32 := lt_of_le_of_lt hb ha
  unfold usub32
  rw [Nat.mod_eq_of_lt ha, Nat.mod_eq_of_lt hbW,
    show a + (W32 - b) = (a - b) + W32 by omega, Nat.add_mod_right]
  exact Nat.mod_eq_of_lt (by omega)

lemma logLine_eq_specLine (trackIndex : Nat) (clipLabel : String) (t : Nat) :
    logLine trackIndex clipLabel t = specLine trackIndex clipLabel t := rfl

lemma logCommand_snd (openOk : Bool) (st : LogState) (bn : String) (now : Nat) :
    (logCommand openOk st bn now).2 =
      .echo (logLine (logCommand openOk st bn now).1.currentTrackIndex bn
               (usub32 now st.timestampStart)) ::
        writeToFile openOk st.currentFileName
          (logLine (logCommand openOk st bn now).1.currentTrackIndex bn
             (usub32 now st.timestampStart)) := rfl

lemma writeToFile_of_ne (openOk : Bool) (f line : String) (h : f ≠ "") :
    writeToFile openOk f line =
      if openOk then [.append f line]
      else [.echo ("Failed to open file for writing: " ++ f)] := by
  unfold writeToFile
  rw [if_neg h]

lemma startsWith_append (p s : String) : startsWithStr (p ++ s) p = true := by
  unfold startsWithStr
  rw [show (p ++ s).data = p.data ++ s.data from rfl, List.isPrefixOf_iff_prefix]
  exact List.prefix_append _ _

lemma sw_setbase_delete (a : String) :
    startsWithStr ("delete " ++ a) "setbase " = false := by
  show List.isPrefixOf ['s', 'e', 't', 'b', 'a', 's', 'e', ' ']
    ('d' :: 'e' :: 'l' :: 'e' :: 't' :: 'e' :: ' ' :: a.data) = false
  simp [List.isPrefixOf]

lemma sw_setbase_send (a : String) :
    startsWithStr ("send " ++ a) "setbase " = false := by
  show List.isPrefixOf ['s', 'e', 't', 'b', 'a', 's', 'e', ' ']
    ('s' :: 'e' :: 'n' :: 'd' :: ' ' :: a.data) = false
  simp [List.isPrefixOf]

lemma sw_delete_send (a : String) :
    startsWithStr ("send " ++ a) "delete " = false := by
  show List.isPrefixOf ['d', 'e', 'l', 'e', 't', 'e', ' ']
    ('s' :: 'e' :: 'n' :: 'd' :: ' ' :: a.data) = false
  simp [List.isPrefixOf]

lemma ne_menu_delete (a : String) : ("delete " ++ a : String) ≠ "menu" := by
  intro h
  have h2 : ("delete " ++ a).data = "menu".data := congrArg String.data h
  simp [String.data_append] at h2

lemma ne_delete_delete (a : String) : ("delete " ++ a : String) ≠ "delete" := by
  intro h
  have h2 : ("delete " ++ a).data = "delete".data := congrArg String.data h
  simp [String.data_append] at h2

lemma ne_menu_send (a : String) : ("send " ++ a : String) ≠ "menu" := by
  intro h
  have h2 : ("send " ++ a).data = "menu".data := congrArg String.data h
  simp [String.data_append] at h2

lemma ne_delete_send (a : String) : ("send " ++ a : String) ≠ "delete" := by
  intro h
  have h2 : ("send " ++ a).data = "delete".data := congrArg String.data h
  simp [String.data_append] at h2

lemma ne_list_send (a : String) : ("send " ++ a : String) ≠ "list" := by
  intro h
  have h2 : ("send " ++ a).data = "list".data := congrArg String.data h
  simp [String.data_append] at h2

lemma dispatch_delete_invalid (st : FMState) (a : String)
    (ha : ¬ (0 < atol (strTrim a) ∧ atol (strTrim a) ≤ (st.fileCount : Int))) :
    dispatchCommand st ("delete " ++ a) = (st, ["Invalid file number."], false) := by
  have h5 : strTrim (dropStr ("delete " ++ a) 7) = strTrim a := rfl
  unfold dispatchCommand
  simp only [ne_menu_delete a, sw_setbase_delete a, ne_delete_delete a,
    startsWith_append "delete " a, h5, if_false, if_true, Bool.false_eq_true,
    ite_false, ite_true, if_neg ha]

lemma dispatch_send_arg (st : FMState) (b : String) (hb : b ≠ "all") :
    dispatchCommand st ("send " ++ b) =
      if 0 < atol b ∧ atol b ≤ (st.fileCount : Int) then
        (st, sendFileOverSerial st.storage (st.fileList.getD ((atol b).toNat - 1) ""),
         false)
      else (st, ["Invalid file number."], false) := by
  have h5 : dropStr ("send " ++ b) 5 = b := rfl
  unfold dispatchCommand
  simp only [ne_menu_send b, sw_setbase_send b, ne_delete_send b, sw_delete_send b,
    ne_list_send b, startsWith_append "send " b, h5, if_false, if_true,
    Bool.false_eq_true, ite_false, ite_true, if_neg hb]

lemma logCommand_fst (openOk : Bool) (st : LogState) (bn : String) (now : Nat)
    (hbn : bn ≠ "power" ∧ bn ≠ "power_hold") :
    (logCommand openOk st bn now).1 =
      { st with lastClipTime := usub32 now st.timestampStart,
                currentTrackIndex :=
                  if usub32 (usub32 now st.timestampStart) st.lastClipTime < 1000
                  then st.currentTrackIndex + 1 else 1 } := by
  unfold logCommand allocateTrack
  dsimp only
  rw [if_pos hbn]
  split_ifs <;> rfl

/-! ## C1 -/

/-- C1: for a continuous hold of one button — identical raw code 25 ("ok")
arriving at 0, 200, 400 and 600 ms, every gap below the 700 ms hold
threshold — the detector is claimed to emit exactly one `_hold` event and
suppress all further repeats.  The embedded code instead emits the
alternating run `ok, ok_hold, ok, ok_hold`: two `_hold` events and an
un-suppressed plain repeat, because `lastButton` is stored with the
`_hold` suffix, so the next identical press no longer compares equal and
is treated as fresh.  This contradicts the code's own comment that the
`holdLogged` flag "ensures a held button is logged only once per hold
event". -/
theorem hold_run_emits_two_hold_events :
    (runHold initHold [(25, 0), (25, 200), (25, 400), (25, 600)]).1
        = ["ok", "ok_hold", "ok", "ok_hold"] ∧
    ((runHold initHold [(25, 0), (25, 200), (25, 400), (25, 600)]).1.count
        "ok_hold") = 2 :=
  ⟨rfl, rfl⟩

/-! ## C2 -/

/-- C2: within a recording session (timestamps monotone since the session
start, all below `2^32`), every accepted non-power event gets
`clipTimeMs = now - sessionStart` stored as the new `lastClipTime`; the
track index is incremented by 1 when `clipTimeMs - lastClipTimeMs < 1000`
and reset to 1 otherwise; consequently two consecutive accepted events
with inter-arrival below 1000 ms get track indices `T` then `T + 1`, and a
gap of at least 1000 ms restarts the group at track 1. -/
theorem track_allocation_law (openOk : Bool) (st : LogState) (bn : String)
    (now₁ now₂ : Nat)
    (hbn : bn ≠ "power" ∧ bn ≠ "power_hold")
    (h0 : st.timestampStart ≤ now₁) (h12 : now₁ ≤ now₂) (hW : now₂ < W32)
    (hlast : st.lastClipTime ≤ now₁ - st.timestampStart) :
    (logCommand openOk st bn now₁).1.lastClipTime = now₁ - st.timestampStart ∧
    (now₁ - st.timestampStart - st.lastClipTime < 1000 →
        (logCommand openOk st bn now₁).1.currentTrackIndex
          = st.currentTrackIndex + 1) ∧
    (1000 ≤ now₁ - st.timestampStart - st.lastClipTime →
        (logCommand openOk st bn now₁).1.currentTrackIndex = 1) ∧
    (now₂ - now₁ < 1000 →
        (logCommand openOk (logCommand openOk st bn now₁).1 bn now₂).1.currentTrackIndex
          = (logCommand openOk st bn now₁).1.currentTrackIndex + 1) ∧
    (1000 ≤ now₂ - now₁ →
        (logCommand openOk (logCommand openOk st bn now₁).1 bn now₂).1.currentTrackIndex
          = 1) := by
  have hW1 : now₁ < W32 := lt_of_le_of_lt h12 hW
  have hclip1 : usub32 now₁ st.timestampStart = now₁ - st.timestampStart :=
    usub32_eq_sub _ _ h0 hW1
  have hsub1 : usub32 (now₁ - st.timestampStart) st.lastClipTime
      = now₁ - st.timestampStart - st.lastClipTime :=
    usub32_eq_sub _ _ hlast (by omega)
  have e1 := logCommand_fst openOk st bn now₁ hbn
  rw [hclip1, hsub1] at e1
  have hts : (logCommand openOk st bn now₁).1.timestampStart = st.timestampStart := by
    rw [e1]
  have hlc : (logCommand openOk st bn now₁).1.lastClipTime
      = now₁ - st.timestampStart := by
    rw [e1]
  have e2 := logCommand_fst openOk (logCommand openOk st bn now₁).1 bn now₂ hbn
  rw [hts, hlc] at e2
  have hclip2 : usub32 now₂ st.timestampStart = now₂ - st.timestampStart :=
    usub32_eq_sub _ _ (le_trans h0 h12) hW
  have hsub2 : usub32 (now₂ - st.timestampStart) (now₁ - st.timestampStart)
      = now₂ - now₁ := by
    rw [usub32_eq_sub _ _ (by omega) (by omega)]
    omega
  rw [hclip2, hsub2] at e2
  refine ⟨hlc, ?_, ?_, ?_, ?_⟩
  · intro h
    rw [e1]
    exact if_pos h
  · intro h
    rw [e1]
    exact if_neg (by omega)
  · intro h
    rw [e2]
    exact if_pos h
  · intro h
    rw [e2]
    exact if_neg (by omega)

/-- C2 witness: session started at 0 ms, events at 500 ms and 1600 ms —
the 1100 ms gap resets the second event's track index to 1. -/
theorem track_allocation_law_witness :
    (logCommand true (logCommand true ⟨0, 0, 1, "/s.txt"⟩ "ok" 500).1
        "ok" 1600).1.currentTrackIndex = 1 :=
  (track_allocation_law true ⟨0, 0, 1, "/s.txt"⟩ "ok" 500 1600
    (by decide) (by decide) (by decide) (by decide) (by decide)).2.2.2.2 (by decide)

/-! ## C3 -/

lemma txt_ne_empty (s : String) : s ++ ".txt" ≠ "" := by
  intro h
  have h2 : (s ++ ".txt").data = ("" : String).data := congrArg String.data h
  rw [show (s ++ ".txt").data = s.data ++ ['.', 't', 'x', 't'] from rfl] at h2
  simp at h2

lemma handleButtonPressFull_session (openOk : Bool) (st : IRState) (c now : Nat) :
    (handleButtonPressFull openOk st c now).1.sessionActive = st.sessionActive ∧
    (handleButtonPressFull openOk st c now).1.currentFileName = st.currentFileName := by
  unfold handleButtonPressFull
  rcases hp : processHold ⟨st.lastButton, st.lastButtonTimestamp, st.holdLogged⟩ c now
    with ⟨_ | name, h⟩ <;> simp

/-- C3: in every state the IR-mode loop can reach from boot, the session
is active exactly when a log target name is set (`currentFileName ≠ ""`):
the session-start transition sets both together, the end-of-session flow
clears both together, and no other transition touches either. -/
theorem session_active_iff_log_target (st : IRState) (hr : ReachableIR st) :
    st.sessionActive = true ↔ st.currentFileName ≠ "" := by
  induction hr with
  | init => simp [initIR]
  | step st openOk i hr ih =>
    cases i with
    | promptTick =>
        simp only [stepIR]
        split
        · exact ih
        · simpa using ih
    | nameLine line now =>
        simp only [stepIR]
        split
        · exact ih
        · simp only [handleNameInput]
          split
          · simpa using ih
          · simpa using txt_ne_empty (withLeadingSlash (strTrim line))
    | irCode code now decision =>
        simp only [stepIR]
        split
        · split
          · simp
          · have hb := handleButtonPressFull_session openOk st code now
            rw [hb.1, hb.2]
            exact ih
        · exact ih

/-- C3 witness: the invariant at the (reachable) boot state. -/
theorem session_active_iff_log_target_witness :
    (initIR.sessionActive = true ↔ initIR.currentFileName ≠ "") :=
  session_active_iff_log_target initIR ReachableIR.init

/-! ## C4 -/

/-- C4 counterexample: code 25 is a classified input (it maps to "ok", not
to the dropped sentinel), and processing it at 1200 ms in the state
⟨"ok", 1000, holdLogged := true⟩ suppresses the event AND leaves
`lastButton`/`lastButtonTimestamp` untouched (the timestamp stays 1000,
not 1200) — refuting the claim that the rolling state is updated
unconditionally on every classified input, including suppressed ones. -/
theorem suppressed_input_skips_update :
    classifyButton 25 ≠ "" ∧
    processHold ⟨"ok", 1000, true⟩ 25 1200 = (none, ⟨"ok", 1000, true⟩) :=
  ⟨by decide, rfl⟩

/-- C4 amended: the hold detector updates `lastButton` and
`lastButtonTimestamp` exactly on the inputs for which an event is emitted
— a suppressed or unclassified input leaves the state unchanged — and on
emission `lastButton` receives the emitted (possibly `_hold`-suffixed)
name, which is the identity the next repeat comparison uses, and
`lastButtonTimestamp` receives the current time. -/
theorem hold_update_exactly_on_emission (st : HoldState) (c now : Nat) :
    ((processHold st c now).1 = none → (processHold st c now).2 = st) ∧
    (∀ e, (processHold st c now).1 = some e →
      (processHold st c now).2.lastButton = e ∧
      (processHold st c now).2.lastButtonTimestamp = now) := by
  unfold processHold
  dsimp only
  split_ifs with h1 h2 h3
  · exact ⟨fun _ => rfl, fun e he => by cases he⟩
  · constructor
    · intro hn
      cases hn
    · intro e he
      cases he
      exact ⟨rfl, rfl⟩
  · exact ⟨fun _ => rfl, fun e he => by cases he⟩
  · constructor
    · intro hn
      cases hn
    · intro e he
      cases he
      exact ⟨rfl, rfl⟩

/-- C4 witness: a fresh press of code 25 at 5 ms emits and updates the
state to ⟨"ok", 5⟩. -/
theorem hold_update_exactly_on_emission_witness :
    (processHold initHold 25 5).2.lastButton = "ok" ∧
    (processHold initHold 25 5).2.lastButtonTimestamp = 5 :=
  (hold_update_exactly_on_emission initHold 25 5).2 "ok" rfl

/-! ## C5 -/

/-- C5 counterexample: in the state reached right after a session `/s.txt`
started at 0 ms, the accepted event "ok" at 500 ms produces the effect
trace `[echo line, append line]` — both writes happen, but the echo comes
FIRST, so the claimed order "persisted append first, then echo"
(`appendThenEcho`) is false on this trace. -/
theorem echo_precedes_append :
    (logCommand true ⟨0, 0, 1, "/s.txt"⟩ "ok" 500).2 =
      [.echo (logLine 2 "ok" 500), .append "/s.txt" (logLine 2 "ok" 500)] ∧
    appendThenEcho (logCommand true ⟨0, 0, 1, "/s.txt"⟩ "ok" 500).2 = false :=
  ⟨rfl, rfl⟩

/-- C5 amended: for every accepted event in a state with a session file
set, the formatted command line is echoed to the control channel and then
appended to the persisted log — in that order (echo first); when the
append-open fails, no append effect occurs at all (no partial write): the
only further effect is the echoed failure report. -/
theorem log_write_order (openOk : Bool) (st : LogState) (bn : String) (now : Nat)
    (h : st.currentFileName ≠ "") :
    (logCommand openOk st bn now).2 =
      .echo (logLine (logCommand openOk st bn now).1.currentTrackIndex bn
               (usub32 now st.timestampStart)) ::
        (if openOk then
          [.append st.currentFileName
             (logLine (logCommand openOk st bn now).1.currentTrackIndex bn
                (usub32 now st.timestampStart))]
         else
          [.echo ("Failed to open file for writing: " ++ st.currentFileName)]) := by
  rw [logCommand_snd, writeToFile_of_ne _ _ _ h]

/-- C5 witness: the amended order theorem at the concrete C5 trace. -/
theorem log_write_order_witness :
    (logCommand true ⟨0, 0, 1, "/s.txt"⟩ "ok" 500).2 =
      .echo (logLine (logCommand true ⟨0, 0, 1, "/s.txt"⟩ "ok" 500).1.currentTrackIndex
               "ok" (usub32 500 0)) ::
        (if true then
          [.append "/s.txt"
             (logLine (logCommand true ⟨0, 0, 1, "/s.txt"⟩ "ok" 500).1.currentTrackIndex
                "ok" (usub32 500 0))]
         else
          [.echo ("Failed to open file for writing: " ++ "/s.txt")]) :=
  log_write_order true ⟨0, 0, 1, "/s.txt"⟩ "ok" 500 (by decide)

/-! ## C6 -/

/-- C6 counterexample: while awaiting a session name, an EMPTY serial line
(the user just presses Enter; the trimmed input is `""`, which is not a
valid non-empty name) nonetheless starts a session: the state becomes
active with log target `"/.txt"` (`charAt(0)` of the empty string is NUL,
so `'/'` is prepended to nothing).  This refutes "no input other than a
valid non-empty name starts a session". -/
theorem empty_name_starts_session :
    (stepIR true initIR (.nameLine "" 100)).sessionActive = true ∧
    (stepIR true initIR (.nameLine "" 100)).currentFileName = "/.txt" ∧
    strTrim "" = "" :=
  ⟨rfl, rfl, rfl⟩

/-- C6 amended: while no session is active, ANY serial line whose trimmed
text is not (case-insensitively) `"menu"` — including the empty line —
starts a session: the log target becomes the trimmed input with `'/'`
prepended when its first character is not `'/'`, plus `".txt"`, and the
transition sets `timestampStart := now`, `lastClipTime := 0`,
`currentTrackIndex := 1`.  A `"menu"` line starts nothing and leaves the
log target unchanged. -/
theorem name_input_transition (openOk : Bool) (st : IRState) (line : String)
    (now : Nat) (hact : st.sessionActive = false) :
    (eqIgnoreCase (strTrim line) "menu" = false →
      (stepIR openOk st (.nameLine line now)).sessionActive = true ∧
      (stepIR openOk st (.nameLine line now)).currentFileName
        = withLeadingSlash (strTrim line) ++ ".txt" ∧
      (stepIR openOk st (.nameLine line now)).timestampStart = now ∧
      (stepIR openOk st (.nameLine line now)).lastClipTime = 0 ∧
      (stepIR openOk st (.nameLine line now)).currentTrackIndex = 1) ∧
    (eqIgnoreCase (strTrim line) "menu" = true →
      (stepIR openOk st (.nameLine line now)).sessionActive = false ∧
      (stepIR openOk st (.nameLine line now)).currentFileName
        = st.currentFileName) := by
  simp only [stepIR, handleNameInput, hact, Bool.false_eq_true, if_false]
  constructor
  · intro h
    rw [if_neg (by simp [h])]
    exact ⟨rfl, rfl, rfl, rfl, rfl⟩
  · intro h
    rw [if_pos h]
    exact ⟨rfl, rfl⟩

/-- C6 witness: the amended transition at the empty-line input from boot. -/
theorem name_input_transition_witness :
    (stepIR true initIR (.nameLine "" 100)).sessionActive = true ∧
    (stepIR true initIR (.nameLine "" 100)).currentFileName
      = withLeadingSlash (strTrim "") ++ ".txt" ∧
    (stepIR true initIR (.nameLine "" 100)).timestampStart = 100 ∧
    (stepIR true initIR (.nameLine "" 100)).lastClipTime = 0 ∧
    (stepIR true initIR (.nameLine "" 100)).currentTrackIndex = 1 :=
  (name_input_transition true initIR "" 100 rfl).1 rfl

/-! ## C8 -/

/-- C8: every accepted event with label `bn`, allocated track `T` and clip
time `t` ms produces the line
`app.project.activeSequence.videoTracks[T].insertClip("bn.mp4", s);` with
`s` the clip time rendered in seconds with 3 decimal places (`specLine`,
written from the spec's format string) — the first effect is exactly one
echo of that line, and on a successful open the whole trace is that echo
plus exactly one append of that same line: one log line per accepted
event. -/
theorem log_line_format (openOk : Bool) (st : LogState) (bn : String) (now : Nat)
    (h : st.currentFileName ≠ "") :
    (logCommand openOk st bn now).2.head? =
      some (.echo (specLine (logCommand openOk st bn now).1.currentTrackIndex bn
              (usub32 now st.timestampStart))) ∧
    (openOk = true →
      (logCommand openOk st bn now).2 =
        [.echo (specLine (logCommand openOk st bn now).1.currentTrackIndex bn
            (usub32 now st.timestampStart)),
         .append st.currentFileName
           (specLine (logCommand openOk st bn now).1.currentTrackIndex bn
              (usub32 now st.timestampStart))]) := by
  rw [← logLine_eq_specLine, logCommand_snd, writeToFile_of_ne _ _ _ h]
  constructor
  · rfl
  · intro ho
    rw [ho, if_pos rfl]

/-- C8 witness: the format theorem at the concrete first-event input. -/
theorem log_line_format_witness :
    (logCommand true ⟨0, 0, 1, "/s.txt"⟩ "ok" 500).2.head? =
      some (.echo (specLine (logCommand true ⟨0, 0, 1, "/s.txt"⟩ "ok" 500).1.currentTrackIndex
              "ok" (usub32 500 0))) :=
  (log_line_format true ⟨0, 0, 1, "/s.txt"⟩ "ok" 500 (by decide)).1

/-! ## C7 -/

/-- C7 counterexample: in the three-file snapshot state, the command
`delete 3abc` has a NON-NUMERIC argument, yet `toInt`/`atol` parses its
leading digit run to 3, which is in range — so the router deletes file 3
(the state changes) and never prints the invalid-index message, refuting
the claim that every non-numeric argument yields an explicit invalid
message and no state change. -/
theorem nonnumeric_index_deletes_file :
    (handleSerialCommand fmThree "delete 3abc").1 ≠ fmThree ∧
    "Invalid file number." ∉ (handleSerialCommand fmThree "delete 3abc").2.1 :=
  ⟨by decide, by decide⟩

/-- C7 amended: `delete <arg>` and `send <arg>` parse `<arg>` with C
`atol` semantics (leading whitespace/sign, greedy digit run, 0 when no
digits — so a purely non-numeric argument parses to 0, but an argument
with a leading digit run parses to that number); whenever the PARSED value
lies outside `[1, fileCount]` the router replies exactly
`Invalid file number.` and changes nothing. -/
theorem invalid_index_reports_and_preserves (st : FMState) (a b : String)
    (ha : ¬ (0 < atol (strTrim a) ∧ atol (strTrim a) ≤ (st.fileCount : Int)))
    (hb : b ≠ "all")
    (hbn : ¬ (0 < atol b ∧ atol b ≤ (st.fileCount : Int))) :
    dispatchCommand st ("delete " ++ a) = (st, ["Invalid file number."], false) ∧
    dispatchCommand st ("send " ++ b) = (st, ["Invalid file number."], false) := by
  refine ⟨dispatch_delete_invalid st a ha, ?_⟩
  rw [dispatch_send_arg st b hb, if_neg hbn]

/-- C7 witness: `delete 99` and `send 0` on the three-file snapshot. -/
theorem invalid_index_reports_and_preserves_witness :
    dispatchCommand fmThree ("delete " ++ "99") = (fmThree, ["Invalid file number."], false) ∧
    dispatchCommand fmThree ("send " ++ "0") = (fmThree, ["Invalid file number."], false) :=
  invalid_index_reports_and_preserves fmThree "99" "0"
    (by decide) (by decide) (by decide)

/-! ## C9 -/

lemma deleteAllAux_eq_filter (names : List String) (s : List (String × String)) :
    deleteAllAux names s
      = s.filter (fun e => names.all (fun n => e.1 != ("/" ++ basename n))) := by
  induction names generalizing s with
  | nil => simp [deleteAllAux]
  | cons n ns ih =>
      simp only [deleteAllAux, removeStored, ih, List.filter_filter]
      apply List.filter_congr
      intro e _
      rw [List.all_cons, Bool.and_comm]

lemma deleteAllAux_self (s : List (String × String))
    (h : ∀ e ∈ s, "/" ++ basename e.1 = e.1) :
    deleteAllAux (s.map Prod.fst) s = [] := by
  rw [deleteAllAux_eq_filter]
  rw [List.filter_eq_nil_iff]
  intro e he
  simp only [List.all_eq_true, not_forall]
  refine ⟨e.1, List.mem_map_of_mem _ he, ?_⟩
  rw [h e he]
  simp

/-- C9 counterexample: the unconditional claim fails on a reachable
stored file.  Typing the session name `a/b` makes the session manager
create the log target `/a/b.txt` (first conjunct), a path with an interior
`'/'`.  `deleteAllFiles` removes `"/" + file.name()` — the basename form
`/b.txt`, not the full path — so after `delete` with no arguments the file
survives in storage, and a subsequent `list` reports ONE entry,
`[1] /a/b.txt`, not zero. -/
theorem nested_path_survives_delete_all :
    (stepIR true initIR (.nameLine "a/b" 0)).currentFileName = "/a/b.txt" ∧
    (handleSerialCommand fmNested "delete").1.storage = [("/a/b.txt", "x")] ∧
    (handleSerialCommand (handleSerialCommand fmNested "delete").1 "list").1.fileCount
      = 1 ∧
    (handleSerialCommand (handleSerialCommand fmNested "delete").1 "list").2.1
      = ["[1] /a/b.txt"] :=
  ⟨rfl, rfl, rfl, rfl⟩

/-- C9 amended: when every stored path is flat (it equals `'/'` followed
by its basename — the shape of every file this firmware creates from a
slash-free session name), `delete` with no argument empties the storage,
and a subsequent `list` reports zero entries: it prints only
`No files found.` and sets the file count to 0.  (A path with an interior
`'/'`, created by typing a session name containing `'/'`, evades the
deletion because `deleteAllFiles` removes `"/" + file.name()`, the
basename form, and survives into the next `list`.) -/
theorem delete_all_then_list_empty (st : FMState)
    (hflat : ∀ e ∈ st.storage, "/" ++ basename e.1 = e.1) :
    (handleSerialCommand (handleSerialCommand st "delete").1 "list").1.fileCount = 0 ∧
    (handleSerialCommand (handleSerialCommand st "delete").1 "list").2.1
      = ["No files found."] := by
  have h1 : (handleSerialCommand st "delete").1
      = { st with storage := deleteAllAux (st.storage.map Prod.fst) st.storage } := rfl
  rw [h1, deleteAllAux_self st.storage hflat]
  exact ⟨rfl, rfl⟩

/-- C9 witness: delete-all then list on the three flat files. -/
theorem delete_all_then_list_empty_witness :
    (handleSerialCommand (handleSerialCommand fmThree "delete").1 "list").1.fileCount = 0 ∧
    (handleSerialCommand (handleSerialCommand fmThree "delete").1 "list").2.1
      = ["No files found."] :=
  delete_all_then_list_empty fmThree (by decide)

/-! ## C10 -/

/-- C10: `delete` with no argument removes the (flat) files from storage
but leaves the router's snapshot — `fileCount` and `fileList` — exactly as
it was; consequently, before any refreshing `list`, `send <n>` for any
`n ∈ [1, fileCount]` of the stale snapshot still announces the removed
file `fileList[n-1]` and then reports the failed open, and `send all`
walks the whole stale snapshot doing the same for every entry. -/
theorem delete_all_keeps_snapshot (st : FMState) (n : Nat) (b : String)
    (hflat : ∀ e ∈ st.storage, "/" ++ basename e.1 = e.1)
    (hb : b ≠ "all") (hbn : atol b = (n : Int))
    (h1 : 1 ≤ n) (h2 : n ≤ st.fileCount) :
    (handleSerialCommand st "delete").1.fileCount = st.fileCount ∧
    (handleSerialCommand st "delete").1.fileList = st.fileList ∧
    (handleSerialCommand st "delete").1.storage = [] ∧
    dispatchCommand (handleSerialCommand st "delete").1 ("send " ++ b) =
      ((handleSerialCommand st "delete").1,
       ["Sending: " ++ st.fileList.getD (n - 1) "",
        "Failed to open file for reading"], false) ∧
    dispatchCommand (handleSerialCommand st "delete").1 "send all" =
      ((handleSerialCommand st "delete").1,
       "START_ALL_FILE_TRANSFER" ::
         ((List.range st.fileCount).flatMap (fun i =>
           ["Sending: " ++ st.fileList.getD i "",
            "Failed to open file for reading"])) ++
         ["END_ALL_FILE_TRANSFER"], false) := by
  have hdel : (handleSerialCommand st "delete").1
      = { st with storage := deleteAllAux (st.storage.map Prod.fst) st.storage } := rfl
  rw [hdel, deleteAllAux_self st.storage hflat]
  refine ⟨rfl, rfl, rfl, ?_, ?_⟩
  · rw [dispatch_send_arg _ b hb, hbn]
    have hcond : 0 < (n : Int) ∧
        (n : Int) ≤ (({ st with storage := ([] : List (String × String)) } :
          FMState).fileCount : Int) := by
      refine ⟨by exact_mod_cast h1, ?_⟩
      show (n : Int) ≤ (st.fileCount : Int)
      exact_mod_cast h2
    rw [if_pos hcond]
    have hidx : ((n : Int)).toNat - 1 = n - 1 := by omega
    rw [hidx]
    rfl
  · have hsa : dispatchCommand { st with storage := ([] : List (String × String)) }
        "send all"
        = ({ st with storage := ([] : List (String × String)) },
           sendAllFilesFM { st with storage := ([] : List (String × String)) },
           false) := rfl
    rw [hsa]
    unfold sendAllFilesFM
    have hnz : ¬ (({ st with storage := ([] : List (String × String)) } :
        FMState).fileCount = 0) := by
      show ¬ (st.fileCount = 0)
      omega
    rw [if_neg hnz]
    rfl

/-- C10 witness: the stale snapshot behavior on the three flat files with
`send 1`. -/
theorem delete_all_keeps_snapshot_witness :
    (handleSerialCommand fmThree "delete").1.fileCount = fmThree.fileCount ∧
    (handleSerialCommand fmThree "delete").1.fileList = fmThree.fileList ∧
    (handleSerialCommand fmThree "delete").1.storage = [] ∧
    dispatchCommand (handleSerialCommand fmThree "delete").1 ("send " ++ "1") =
      ((handleSerialCommand fmThree "delete").1,
       ["Sending: " ++ fmThree.fileList.getD (1 - 1) "",
        "Failed to open file for reading"], false) ∧
    dispatchCommand (handleSerialCommand fmThree "delete").1 "send all" =
      ((handleSerialCommand fmThree "delete").1,
       "START_ALL_FILE_TRANSFER" ::
         ((List.range fmThree.fileCount).flatMap (fun i =>
           ["Sending: " ++ fmThree.fileList.getD i "",
            "Failed to open file for reading"])) ++
         ["END_ALL_FILE_TRANSFER"], false) :=
  delete_all_keeps_snapshot fmThree 1 "1" (by decide) (by decide) (by decide)
    (by decide) (by decide)

end IRBlaupunkt
